import Mathlib

/-!
# Verification of the fwupd_rs DFU protocol stack

A shallow embedding, in Lean 4, of the two-layer framed protocol stack
(LPL link layer + APL application layer) and the DFU update engine of the
`fwupd_rs` repository, together with proofs and refutations of the stated
properties of its specification.

Conventions of the embedding:
* machine integers (`u8`, `u16`, `u32`, `usize`) are modelled as `Nat`,
  with an explicit `% 2^w` wherever the Rust code truncates or wraps;
* byte buffers (`BytesMut`, `Vec<u8>`, `&[u8]`) are `List Nat`;
* fallible Rust functions returning `Result` become `Except`/`Option`;
* the `crc` and `cobs` crates are external dependencies (not part of the
  repository's sources); their algorithms are modelled from the
  specification's definitions: CRC-16/CCITT-FALSE (poly 0x1021, init
  0xFFFF, no reflection, no final XOR), CRC-32/ISO-HDLC (reflected poly
  0xEDB88320, init 0xFFFFFFFF, XorOut 0xFFFFFFFF) and standard COBS
  byte stuffing.
-/

set_option maxRecDepth 100000

namespace Fwupd

/-- Little-endian serialization of a 16-bit value (Rust `put_u16_le`). -/
def le16 (n : Nat) : List Nat := [n % 256, n / 256 % 256]

/-- Little-endian serialization of a 32-bit value (Rust `put_u32_le`). -/
def le32 (n : Nat) : List Nat :=
  [n % 256, n / 256 % 256, n / 65536 % 256, n / 16777216 % 256]

/-- Little-endian read of two bytes (Rust `u16::from_le_bytes`). -/
def fromLe16 (b0 b1 : Nat) : Nat := b0 % 256 + 256 * (b1 % 256)

/-- One shift step of the MSB-first CRC-16 register (poly 0x1021). -/
def crc16Shift (c : Nat) : Nat :=
  if c.testBit 15 then Nat.xor (c * 2) 0x1021 % 65536 else c * 2 % 65536

/-- Fold one input byte into the CRC-16/CCITT-FALSE register. -/
def crc16Byte (c b : Nat) : Nat :=
  (List.range 8).foldl (fun acc _ => crc16Shift acc) (Nat.xor c (b % 256 * 256) % 65536)

/-- CRC-16/CCITT-FALSE of a byte list: poly 0x1021, init 0xFFFF, no
reflection, no final XOR.  Models `Crc::<u16>::new(&CRC_16_CCITT_FALSE)`
of the `crc` crate, per the specification's glossary. -/
def crc16 (data : List Nat) : Nat := data.foldl crc16Byte 0xFFFF

/-- One shift step of the reflected CRC-32 register (poly 0xEDB88320). -/
def crc32Shift (c : Nat) : Nat :=
  if c % 2 = 1 then Nat.xor (c / 2) 0xEDB88320 else c / 2

/-- Fold one input byte into the reflected CRC-32 register. -/
def crc32Byte (c b : Nat) : Nat :=
  (List.range 8).foldl (fun acc _ => crc32Shift acc) (Nat.xor c (b % 256))

/-- CRC-32/ISO-HDLC of a byte list: reflected poly 0xEDB88320, init
0xFFFFFFFF, final XOR 0xFFFFFFFF.  Models `calculate_crc32` in
`src/dfu/mod.rs` (`Crc::<u32>::new(&CRC_32_ISO_HDLC).checksum`), the
algorithm per the specification's glossary. -/
def calculate_crc32 (data : List Nat) : Nat :=
  Nat.xor (data.foldl crc32Byte 0xFFFFFFFF) 0xFFFFFFFF

/-- The state-machine loop of a standard COBS encoder (the `cobs` crate's
`cobs::encode`, modelled from the specification's glossary): `blk` is the
pending zero-free block (always of length ≤ 253 at entry).  A zero input
byte or a block reaching 254 bytes finalizes the group, emitting a code
byte of block length + 1 (0xFF for a full block, which consumes no
zero); the trailing group is emitted when the input ends. -/
def cobsGo (blk : List Nat) (xs : List Nat) : List Nat :=
  match xs with
  | [] => (blk.length + 1) :: blk
  | b :: rest =>
    if b = 0 then (blk.length + 1) :: (blk ++ cobsGo [] rest)
    else if blk.length = 253 then 255 :: ((blk ++ [b]) ++ cobsGo [] rest)
    else cobsGo (blk ++ [b]) rest

/-- Standard COBS encoding of a byte list. -/
def cobsEncode (xs : List Nat) : List Nat := cobsGo [] xs

/-- The fuelled loop of a standard COBS decoder: read a code byte `c`,
take `c - 1` literal bytes (which must be zero-free), and append a zero
between groups unless the code was 0xFF or the input is exhausted.  One
unit of fuel is spent per group; `fuel = input length` always suffices. -/
def cobsDecodeGo (fuel : Nat) (xs : List Nat) : Option (List Nat) :=
  match fuel, xs with
  | _, [] => some []
  | 0, _ :: _ => none
  | fuel + 1, c :: rest =>
    if c = 0 then none
    else if rest.length < c - 1 then none
    else if (rest.take (c - 1)).any (fun b => b == 0) then none
    else
      match rest.drop (c - 1) with
      | [] => some (rest.take (c - 1))
      | _ :: _ =>
        if c < 255 then
          (cobsDecodeGo fuel (rest.drop (c - 1))).map (fun t => rest.take (c - 1) ++ 0 :: t)
        else
          (cobsDecodeGo fuel (rest.drop (c - 1))).map (fun t => rest.take (c - 1) ++ t)

/-- Standard COBS decoding (the `cobs` crate's `cobs::decode`, modelled
from the specification's glossary). -/
def cobsDecode (xs : List Nat) : Option (List Nat) := cobsDecodeGo xs.length xs


/-! ## APL packet types and messages (`src/protocols/apl/types.rs`) -/

/-- The APL packet type tag (Rust `enum AplRequestType`). -/
inductive AplRequestType where
  | None
  | ReadRequest
  | WriteRequest
  | Data
  | Ack
  | Error
deriving DecidableEq

/-- The wire value of a packet type (Rust `request_type as u8`). -/
def AplRequestType.toNat : AplRequestType → Nat
  | .None => 0
  | .ReadRequest => 1
  | .WriteRequest => 2
  | .Data => 3
  | .Ack => 4
  | .Error => 5

/-- Rust `impl TryFrom<u8> for AplRequestType`. -/
def AplRequestType.tryFrom (v : Nat) : Option AplRequestType :=
  match v with
  | 0 => some .None
  | 1 => some .ReadRequest
  | 2 => some .WriteRequest
  | 3 => some .Data
  | 4 => some .Ack
  | 5 => some .Error
  | _ => none

/-- Rust `struct AplMessage` (`src/protocols/apl/types.rs`). -/
structure AplMessage where
  packet_type : AplRequestType
  block_number : Nat
  data : List Nat
deriving DecidableEq

/-- Rust `AplMessage::to_bytes`: packet type byte, 16-bit little-endian block
number, then the data bytes. -/
def AplMessage.to_bytes (m : AplMessage) : List Nat :=
  m.packet_type.toNat :: (le16 m.block_number ++ m.data)

/-- Rust `AplMessage::from_bytes`: requires at least 3 bytes, parses the type
byte, the little-endian block number at bytes 1..2, and takes the rest
as data. -/
def AplMessage.from_bytes (data : List Nat) : Option AplMessage :=
  if data.length < 3 then none
  else
    match AplRequestType.tryFrom (data.getD 0 0) with
    | none => none
    | some t => some ⟨t, fromLe16 (data.getD 1 0) (data.getD 2 0), data.drop 3⟩

/-! ## LPL framing (`src/protocols/lpl/mod.rs`) -/

/-- The framing steps of `LplStream::send_request` applied to an APL
payload `p`: append the little-endian CRC-16/CCITT-FALSE of `p`, then
COBS-encode.  This is the frame body between the SYN byte and the
terminating zero. -/
def lpl_encode_payload (p : List Nat) : List Nat :=
  cobsEncode (p ++ le16 (crc16 p))

/-- The full wire frame `LplStream::send_request` writes:
`0x55 | COBS(payload | CRC16_LE) | 0x00`. -/
def lpl_frame (p : List Nat) : List Nat :=
  0x55 :: (lpl_encode_payload p ++ [0])

/-- The framing portion of `LplStream::decode_message`: COBS-decode the
frame body, require at least 2 decoded bytes, split off the trailing
little-endian CRC-16 and verify it against the CRC of the leading data.
(`decode_message` then parses the data as an `AplMessage`; see
`decode_message` below.) -/
def lpl_decode_payload (payload : List Nat) : Option (List Nat) :=
  match cobsDecode payload with
  | none => none
  | some decoded =>
    if decoded.length < 2 then none
    else
      let data := decoded.take (decoded.length - 2)
      let crcBytes := decoded.drop (decoded.length - 2)
      if crc16 data = fromLe16 (crcBytes.getD 0 0) (crcBytes.getD 1 0) then some data
      else none

/-- Rust `LplStream::decode_message` in full: the framing decode followed by
`AplMessage::from_bytes`. -/
def decode_message (payload : List Nat) : Option AplMessage :=
  match lpl_decode_payload payload with
  | none => none
  | some data => AplMessage.from_bytes data

/-- The APL payload that `LplStream::send_request` actually serializes
into the frame: it constructs `AplMessage { packet_type, block_number:
0, data: vec![] }` and calls `to_bytes` on it.  The `block_size`,
`timeout`, `command`, `offset` and `size` arguments of `send_request`
are never read. -/
def send_request_payload (request_type : AplRequestType)
    (_block_size _timeout _command _offset _size : Nat) : List Nat :=
  (AplMessage.mk request_type 0 []).to_bytes

/-- Rust `AplStream::create_request` (`src/protocols/apl/mod.rs`): the
14-byte request serialization — header byte, 16-bit block size, 16-bit
timeout, 8-bit command, 32-bit offset, 32-bit length, all little-endian.
This function is never called by the rest of the source. -/
def create_request (request_type : AplRequestType)
    (block_size timeout command offset size : Nat) : List Nat :=
  request_type.toNat :: (le16 block_size ++ le16 timeout ++ [command % 256] ++
    le32 offset ++ le32 size)

/-! ## APL session state machine (`src/protocols/apl/mod.rs`) -/

/-- The mutable session state of `AplStream`: the expected block number
(a `u16` counter), the retry counter and the retry budget (3). -/
structure AplStream where
  block_number : Nat
  retries : Nat
  max_retries : Nat
deriving DecidableEq

/-- Rust `AplStream::new` starts the session at block 0 with no retries. -/
def AplStream.new : AplStream :=
  { block_number := 0, retries := 0, max_retries := 3 }

/-- The errors the APL handlers produce. -/
inductive AplError where
  | invalidBlockNumber
  | invalidAckBlockNumber
  | maxRetriesExceeded
  | protocolFailure (data : List Nat)
  | unsupportedMessageType
deriving DecidableEq

/-- Rust `AplStream::handle_data`: a Data packet must carry the expected
block number; on match an Ack with that block number is emitted
(through `self.tx`, modelled as the middle component), the counter
advances (u16 wrap) and retries reset.  On mismatch the state is left
untouched and an error is returned.  The result triple is
(state after the call, message emitted, outcome). -/
def handle_data (s : AplStream) (msg : AplMessage) :
    AplStream × Option AplMessage × Except AplError Unit :=
  if msg.block_number ≠ s.block_number then
    (s, none, .error .invalidBlockNumber)
  else
    ({ s with block_number := (s.block_number + 1) % 65536, retries := 0 },
     some ⟨.Ack, s.block_number, []⟩, .ok ())

/-- Rust `AplStream::handle_ack`: same counter discipline as `handle_data`
but no message is emitted. -/
def handle_ack (s : AplStream) (msg : AplMessage) :
    AplStream × Option AplMessage × Except AplError Unit :=
  if msg.block_number ≠ s.block_number then
    (s, none, .error .invalidAckBlockNumber)
  else
    ({ s with block_number := (s.block_number + 1) % 65536, retries := 0 },
     none, .ok ())

/-- Rust `AplStream::handle_error`: with the retry budget exhausted
(`retries >= max_retries`) fail the session; otherwise count a retry
and surface a retryable protocol error carrying the packet's data
(the server-supplied error code and message bytes). -/
def handle_error (s : AplStream) (msg : AplMessage) :
    AplStream × Option AplMessage × Except AplError Unit :=
  if s.max_retries ≤ s.retries then
    (s, none, .error .maxRetriesExceeded)
  else
    ({ s with retries := s.retries + 1 }, none, .error (.protocolFailure msg.data))

/-- Rust `AplStream::process_message`: dispatch on the packet type. -/
def process_message (s : AplStream) (msg : AplMessage) :
    AplStream × Option AplMessage × Except AplError Unit :=
  match msg.packet_type with
  | .Data => handle_data s msg
  | .Ack => handle_ack s msg
  | .Error => handle_error s msg
  | _ => (s, none, .error .unsupportedMessageType)

/-! ## APL request packet parsing (`src/protocols/apl/packet.rs`) -/

/-- Little-endian read of four bytes (Rust `u32::from_le_bytes`). -/
def fromLe32 (b0 b1 b2 b3 : Nat) : Nat :=
  b0 % 256 + 256 * (b1 % 256) + 65536 * (b2 % 256) + 16777216 * (b3 % 256)

inductive PacketParseError where
  | tooShort
  | outOfBounds
deriving DecidableEq

/-- Rust `struct AplRequestPacket` (fields flattened; `type_id` is the
header byte). -/
structure AplRequestPacket where
  type_id : Nat
  block_size : Nat
  timeout : Nat
  command : Nat
  offset : Nat
  length : Nat
deriving DecidableEq

/-- A single indexed byte access `bytes[i]`.  Rust panics past the end
of the buffer; the total embedding surfaces that as `outOfBounds`. -/
def byteAt (bytes : List Nat) (i : Nat) : Except PacketParseError Nat :=
  match bytes.get? i with
  | some b => .ok b
  | none => .error .outOfBounds

/-- Rust `AplRequestPacket::from_bytes`: guards only `len >= 12`, then reads
bytes 0..13 — `offset` from 6..9 and `length` from 10..13. -/
def AplRequestPacket.from_bytes (bytes : List Nat) :
    Except PacketParseError AplRequestPacket :=
  if bytes.length < 12 then .error .tooShort
  else do
    let t ← byteAt bytes 0
    let bs0 ← byteAt bytes 1
    let bs1 ← byteAt bytes 2
    let to0 ← byteAt bytes 3
    let to1 ← byteAt bytes 4
    let cmd ← byteAt bytes 5
    let o0 ← byteAt bytes 6
    let o1 ← byteAt bytes 7
    let o2 ← byteAt bytes 8
    let o3 ← byteAt bytes 9
    let l0 ← byteAt bytes 10
    let l1 ← byteAt bytes 11
    let l2 ← byteAt bytes 12
    let l3 ← byteAt bytes 13
    return ⟨t, fromLe16 bs0 bs1, fromLe16 to0 to1, cmd,
            fromLe32 o0 o1 o2 o3, fromLe32 l0 l1 l2 l3⟩

/-! ## DFU engine data model (`src/dfu/types.rs`, `src/dfu/config.rs`) -/

/-- Rust `enum Command` (`src/dfu/types.rs`), by wire value:
ReadBootloaderInfo = 0, ReadProgramCrc = 3, BootloaderQuit = 5,
WriteProgramMemory = 6. -/
def CMD_READ_BOOTLOADER_INFO : Nat := 0
def CMD_READ_PROGRAM_CRC : Nat := 3
def CMD_BOOTLOADER_QUIT : Nat := 5
def CMD_WRITE_PROGRAM_MEMORY : Nat := 6

inductive UpdateMode where
  | None
  | Direct
  | Link
deriving DecidableEq

structure DfuConfig where
  uri : String
  filename : Option String
  block_size : Nat
  get_info : Bool
  update : Bool
  overwrite : Bool
  verify : Bool
  quit : Bool
  dev_netid : Nat
  dev_speed : Nat
  upd_speed : Nat
  lnk_speed : Nat
  upd_mode : UpdateMode
  gap_filling : Nat
deriving DecidableEq

/-- Rust `DfuConfig::default` (`src/dfu/config.rs`). -/
def DfuConfig.default : DfuConfig :=
  { uri := "", filename := none, block_size := 1024, get_info := false,
    update := false, overwrite := false, verify := false, quit := false,
    dev_netid := 0, dev_speed := 9600, upd_speed := 115200,
    lnk_speed := 9600, upd_mode := .None, gap_filling := 0xFF }

/-- Rust `DfuConfig::validate`. -/
def DfuConfig.validate (c : DfuConfig) : Except String Unit :=
  if c.uri = "" then .error "URI must be specified"
  else if c.update ∧ c.filename = none then
    .error "Firmware file must be specified for update"
  else .ok ()

structure Region where
  count : Nat
  size : Nat
deriving DecidableEq

structure DeviceId where
  id : Nat
  rev : Nat
  uid : List Nat
deriving DecidableEq

structure DeviceMemoryMap where
  metadata_address : Nat
  metadata_size : Nat
  firmware_address : Nat
  firmware_size : Nat
  flash_address : Nat
  flash_size : Nat
  flash_write_blocksize : Nat
  regions : List Region
deriving DecidableEq

structure InfoBlockV2 where
  version : Nat
  max_block_size : Nat
  device : DeviceId
  unused : List Nat
  memmap : DeviceMemoryMap
deriving DecidableEq

/-- The error taxonomy of `src/error.rs` (payload strings dropped where
they carry no decidable content). -/
inductive DfuError where
  | protocolViolation
  | invalidPacket (byte : Nat)
  | crcMismatch
  | timeout
  | connection
  | ioFailure
  | noFirmwareFile
  | hexFileFailure
  | firmwareTooLarge
  | invalidDeviceId
  | verificationFailed
  | bootloaderNotDetected
  | configuration
deriving DecidableEq

/-! ## DFU engine operations (`src/dfu/mod.rs`) -/

/-- One call to `LplStream::send_request` made by the DFU engine,
recorded with its arguments. -/
structure SentRequest where
  request_type : AplRequestType
  block_size : Nat
  timeout : Nat
  command : Nat
  offset : Nat
  size : Nat
deriving DecidableEq

/-- The request `quit_bootloader` sends: WriteRequest, command
BootloaderQuit (5). -/
def quit_request : SentRequest :=
  ⟨.WriteRequest, 0, 0, CMD_BOOTLOADER_QUIT, 0, 0⟩

/-- The request `write_block` sends for a chunk at `address`. -/
def write_block_request (data : List Nat) (address : Nat) : SentRequest :=
  ⟨.WriteRequest, data.length, 0, CMD_WRITE_PROGRAM_MEMORY, address, data.length⟩

/-- The request `read_firmware_crc` sends. -/
def read_crc_request (address size : Nat) : SentRequest :=
  ⟨.ReadRequest, 4, 0, CMD_READ_PROGRAM_CRC, address, size⟩

/-- Rust `DfuStream::max_firmware_size`: the constant 1 MiB. -/
def MAX_FIRMWARE_SIZE : Nat := 1024 * 1024

/-- One HEX `Data` record copied into the firmware buffer
(`firmware[offset..offset + value.len()].copy_from_slice(&value)`).
Rust panics when the range overruns the buffer; the total embedding
returns `none` there. -/
def write_record (buf : List Nat) (offset : Nat) (value : List Nat) : Option (List Nat) :=
  if offset + value.length ≤ buf.length then
    some (buf.take offset ++ value ++ buf.drop (offset + value.length))
  else none

/-- Rust `DfuStream::load_firmware`: requires a filename, pre-fills a buffer
of `max_firmware_size` bytes with the constant `0xFF` (the
`gap_filling` configuration field is never read), then copies each HEX
`Data` record over it.  The hex parser is an external collaborator; its
record stream is a parameter. -/
def load_firmware (cfg : DfuConfig) (records : List (Nat × List Nat)) :
    Except DfuError (List Nat) :=
  match cfg.filename with
  | none => .error .noFirmwareFile
  | some _ =>
    records.foldlM
      (fun buf r =>
        match write_record buf r.1 r.2 with
        | some buf2 => Except.ok buf2
        | none => Except.error .hexFileFailure)
      (List.replicate MAX_FIRMWARE_SIZE 0xFF)

/-- The loop of `firmware.chunks(block_size)`: fuel-driven splitting
into blocks of `bs` bytes (the final block may be shorter).  Fuel equal
to the list length always suffices for `bs > 0`. -/
def chunksGo (fuel bs : Nat) (l : List Nat) : List (List Nat) :=
  match fuel, l with
  | _, [] => []
  | 0, _ :: _ => []
  | f + 1, l => l.take bs :: chunksGo f bs (l.drop bs)

/-- Rust `slice::chunks(bs)` (Rust panics for `bs = 0`; that case is never
reached by the engine's callers and is mapped to `[]`). -/
def chunksOf (bs : Nat) (l : List Nat) : List (List Nat) :=
  if bs = 0 then [] else chunksGo l.length bs l

/-- The `WriteProgramMemory` requests the write loop issues: chunk `i`
goes to `firmware_address + i * block_size` (u32 arithmetic). -/
def write_requests (fw : List Nat) (block_size address : Nat) : List SentRequest :=
  ((chunksOf block_size fw).enum).map
    (fun p => write_block_request p.2 ((address + p.1 * block_size) % 4294967296))

/-- Rust `DfuStream::write_firmware`, given the loaded firmware image, the
CRC the device reports for the firmware region, and the index of the
first failing block write (if any): query the device CRC; skip
entirely when it matches the image CRC and `overwrite` is off;
otherwise stream the image in blocks of
`min(config.block_size, info.max_block_size)`.  Returns the list of
`send_request` calls made and the outcome. -/
def write_firmware (cfg : DfuConfig) (info : InfoBlockV2) (fw : List Nat)
    (device_crc : Nat) (write_fail_at : Option Nat) :
    List SentRequest × Except DfuError Unit :=
  let readReq := read_crc_request info.memmap.firmware_address info.memmap.firmware_size
  if device_crc = calculate_crc32 fw ∧ cfg.overwrite = false then
    ([readReq], .ok ())
  else
    let bs := min cfg.block_size info.max_block_size
    let reqs := write_requests fw bs info.memmap.firmware_address
    match write_fail_at with
    | none => (readReq :: reqs, .ok ())
    | some k =>
      if k < reqs.length then (readReq :: reqs.take (k + 1), .error .connection)
      else (readReq :: reqs, .ok ())

/-- Rust `DfuStream::verify_firmware`, given the loaded image and the CRC
the device reports: read the device CRC and compare with the image
CRC. -/
def verify_firmware (info : InfoBlockV2) (fw : List Nat) (device_crc : Nat) :
    List SentRequest × Except DfuError Unit :=
  let readReq := read_crc_request info.memmap.firmware_address info.memmap.firmware_size
  if calculate_crc32 fw ≠ device_crc then ([readReq], .error .verificationFailed)
  else ([readReq], .ok ())

/-- Rust `DfuStream::verify_device_id`: search the firmware for a contiguous
window equal to the device uid (`firmware.windows(len).any(..)`). -/
def has_uid_window (fw uid : List Nat) : Bool :=
  (List.range (fw.length + 1 - uid.length)).any
    (fun i => (fw.drop i).take uid.length == uid)

/-- Rust `DfuStream::validate_firmware`: size bound, then (for version ≥ 0x30
without `overwrite`) the uid search.  This function is defined in
`src/dfu/mod.rs` but never called by `write_firmware` or anything
else. -/
def validate_firmware (cfg : DfuConfig) (info : InfoBlockV2) (fw : List Nat) :
    Except DfuError Unit :=
  if info.memmap.firmware_size < fw.length then .error .firmwareTooLarge
  else if 0x30 ≤ info.version ∧ cfg.overwrite = false then
    (if has_uid_window fw info.device.uid then .ok () else .error .invalidDeviceId)
  else .ok ()

/-! ## The `update()` orchestration (`src/dfu/mod.rs`) -/

/-- Which stage of `update()` produced a failure (a modelling tag; the
Rust error value does not carry it). -/
inductive DfuStage where
  | entering
  | readingInfo
  | writing
  | verifying
  | quitting
deriving DecidableEq

/-- The environment of one `update()` run: the outcomes of every
transport/device interaction and collaborator call. -/
structure DfuEnv where
  probe1 : Bool
  reboot_ok : Bool
  probe2 : Bool
  info : Except DfuError InfoBlockV2
  hex_records : Except DfuError (List (Nat × List Nat))
  device_crc_write : Except DfuError Nat
  device_crc_verify : Except DfuError Nat
  write_fail_at : Option Nat
  quit_ok : Except DfuError Unit

/-- Modelled from the spec: the body of `detect_bootloader` is not in
`src/` (only its call sites in `auto_enter` are); per the
specification's §4.3 it probes the bootloader by issuing
`ReadBootloaderInfo` (command 0). -/
def probe_request : SentRequest :=
  ⟨.ReadRequest, 0, 0, CMD_READ_BOOTLOADER_INFO, 0, 0⟩

/-- Modelled from the spec: `sizeof(InfoBlockV2)` for the packed layout
`u8 + u16 + (u16+u16+u8[16]) + u8[18] + (6*u32 + u16 + 5*(u32+u32))`
= 107 bytes. -/
def INFO_BLOCK_SIZE : Nat := 107

/-- Modelled from the spec: the body of `read_bootloader_info` is not in
`src/`; per §4.3 it issues `ReadBootloaderInfo` with
`length = sizeof(InfoBlockV2)`. -/
def read_info_request : SentRequest :=
  ⟨.ReadRequest, INFO_BLOCK_SIZE, 0, CMD_READ_BOOTLOADER_INFO, 0, INFO_BLOCK_SIZE⟩

/-- Rust `DfuStream::auto_enter`: set speed (a no-op), probe; on failure send
the reboot command (a device-specific collaborator hook carried outside
the LPL request path, modelled from the spec), sleep 1 s, re-probe. -/
def auto_enter (env : DfuEnv) : List SentRequest × Except DfuError Unit :=
  if env.probe1 then ([probe_request], .ok ())
  else if env.reboot_ok = false then ([probe_request], .error .connection)
  else if env.probe2 then ([probe_request, probe_request], .ok ())
  else ([probe_request, probe_request], .error .bootloaderNotDetected)

/-- Modelled from the spec: `read_bootloader_info` issues the info
request and parses the device's reply (outcome supplied by `env`). -/
def read_bootloader_info (env : DfuEnv) :
    List SentRequest × Except DfuError InfoBlockV2 :=
  ([read_info_request], env.info)

/-- The write stage as `update()` runs it: load the firmware from the
hex collaborator, then `write_firmware`. -/
def write_firmware_stage (cfg : DfuConfig) (info : InfoBlockV2) (env : DfuEnv) :
    List SentRequest × Except DfuError Unit :=
  match env.hex_records with
  | .error e => ([], .error e)
  | .ok records =>
    match load_firmware cfg records with
    | .error e => ([], .error e)
    | .ok fw =>
      match env.device_crc_write with
      | .error e =>
        ([read_crc_request info.memmap.firmware_address info.memmap.firmware_size],
         .error e)
      | .ok dcrc => write_firmware cfg info fw dcrc env.write_fail_at

/-- The verify stage as `update()` runs it. -/
def verify_firmware_stage (cfg : DfuConfig) (info : InfoBlockV2) (env : DfuEnv) :
    List SentRequest × Except DfuError Unit :=
  match env.hex_records with
  | .error e => ([], .error e)
  | .ok records =>
    match load_firmware cfg records with
    | .error e => ([], .error e)
    | .ok fw =>
      match env.device_crc_verify with
      | .error e =>
        ([read_crc_request info.memmap.firmware_address info.memmap.firmware_size],
         .error e)
      | .ok dcrc => verify_firmware info fw dcrc

/-- The tail of `update()`: `quit_bootloader` when `config.quit`, then
`auto_exit` (whose `set_speed` is a no-op and cannot fail). -/
def quit_and_exit (cfg : DfuConfig) (env : DfuEnv) (pre : List SentRequest) :
    List SentRequest × Except (DfuStage × DfuError) Unit :=
  if cfg.quit then
    match env.quit_ok with
    | .error e => (pre ++ [quit_request], .error (.quitting, e))
    | .ok _ => (pre ++ [quit_request], .ok ())
  else (pre, .ok ())

/-- Rust `DfuStream::update`: auto-enter (when `upd_mode ≠ None`), read the
info block (when any of `get_info`/`update`/`verify`), write (when
`update`), verify (when `verify`), quit (when `quit`), restore speed.
Errors propagate immediately (`?`); the stage tag records where.
Returns every `send_request` call made and the outcome. -/
def update (cfg : DfuConfig) (env : DfuEnv) :
    List SentRequest × Except (DfuStage × DfuError) Unit :=
  match (if cfg.upd_mode ≠ UpdateMode.None then auto_enter env else ([], .ok ())) with
  | (t1, .error e) => (t1, .error (.entering, e))
  | (t1, .ok _) =>
    if cfg.get_info ∨ cfg.update ∨ cfg.verify then
      match read_bootloader_info env with
      | (t2, .error e) => (t1 ++ t2, .error (.readingInfo, e))
      | (t2, .ok info) =>
        match (if cfg.update then write_firmware_stage cfg info env else ([], .ok ())) with
        | (t3, .error e) => (t1 ++ t2 ++ t3, .error (.writing, e))
        | (t3, .ok _) =>
          match (if cfg.verify then verify_firmware_stage cfg info env else ([], .ok ())) with
          | (t4, .error e) => (t1 ++ t2 ++ t3 ++ t4, .error (.verifying, e))
          | (t4, .ok _) => quit_and_exit cfg env (t1 ++ t2 ++ t3 ++ t4)
    else quit_and_exit cfg env t1

/-! ## Concrete fixtures used by witnesses and counterexamples -/

/-- A memory-map fixture (values from the spec's scenario S2). -/
def memmap_fixture : DeviceMemoryMap :=
  { metadata_address := 0, metadata_size := 0,
    firmware_address := 0x08000000, firmware_size := 0x10000,
    flash_address := 0, flash_size := 0, flash_write_blocksize := 0,
    regions := [] }

/-- A device info block fixture (values from the spec's scenario S2). -/
def info_fixture : InfoBlockV2 :=
  { version := 0x30, max_block_size := 1024,
    device := { id := 0xABCD, rev := 1, uid := List.replicate 16 0 },
    unused := List.replicate 18 0,
    memmap := memmap_fixture }

/-- The info fixture with a firmware region of size 0 — any non-empty
image is oversized for it. -/
def info_small : InfoBlockV2 :=
  { info_fixture with
    memmap := { info_fixture.memmap with firmware_size := 0 } }

/-- A configuration with a firmware file and `gap_filling = 0`. -/
def cfg_gap_zero : DfuConfig :=
  { DfuConfig.default with filename := some "firmware.hex", gap_filling := 0 }

/-- A configuration with a firmware file and `overwrite` on. -/
def cfg_overwrite : DfuConfig :=
  { DfuConfig.default with filename := some "firmware.hex", overwrite := true }

/-- A configuration that reads device info and quits. -/
def cfg_info_quit : DfuConfig :=
  { DfuConfig.default with uri := "stream", get_info := true, quit := true }

/-- An environment whose info read fails with a connection error. -/
def env_info_fails : DfuEnv :=
  { probe1 := true, reboot_ok := true, probe2 := true,
    info := .error .connection, hex_records := .ok [],
    device_crc_write := .ok 0, device_crc_verify := .ok 0,
    write_fail_at := none, quit_ok := .ok () }

/-! # Theorems -/

example : crc16 [0x31, 0x32, 0x33, 0x34, 0x35, 0x36, 0x37, 0x38, 0x39] = 0x29B1 := by decide

example : cobsEncode [1, 2, 0x73, 0x13] = [5, 1, 2, 0x73, 0x13] := by decide

example : cobsEncode [0x11, 0x22, 0x00, 0x33] = [3, 0x11, 0x22, 2, 0x33] := by decide

example : cobsDecode [5, 1, 2, 0x73, 0x13] = some [1, 2, 0x73, 0x13] := by decide

example : cobsDecode [3, 0x11, 0x22, 2, 0x33] = some [0x11, 0x22, 0x00, 0x33] := by decide

theorem cobsGo_ne_nil (xs : List Nat) : ∀ blk, cobsGo blk xs ≠ [] := by
  induction xs with
  | nil => intro blk; simp [cobsGo]
  | cons b rest ih =>
    intro blk
    simp only [cobsGo]
    by_cases hb : b = 0
    · simp [hb]
    · by_cases hl : blk.length = 253
      · simp [hb, hl]
      · simpa [hb, hl] using ih (blk ++ [b])

theorem cobsGo_length_ge (xs : List Nat) :
    ∀ blk, blk.length + xs.length + 1 ≤ (cobsGo blk xs).length := by
  induction xs with
  | nil => intro blk; simp [cobsGo]
  | cons b rest ih =>
    intro blk
    simp only [cobsGo]
    by_cases hb : b = 0
    · have := ih []
      rw [if_pos hb]
      simp only [List.length_cons, List.length_append, List.length_nil] at *
      omega
    · by_cases hl : blk.length = 253
      · have := ih []
        rw [if_neg hb, if_pos hl]
        simp only [List.length_cons, List.length_append, List.length_nil] at *
        omega
      · have := ih (blk ++ [b])
        rw [if_neg hb, if_neg hl]
        simp only [List.length_cons, List.length_append, List.length_nil] at *
        omega

theorem cobsDecodeGo_group (f : Nat) (blk tail : List Nat)
    (hz : ∀ x ∈ blk, x ≠ 0) (hlen : blk.length ≤ 254) :
    cobsDecodeGo (f + 1) ((blk.length + 1) :: (blk ++ tail)) =
      match tail with
      | [] => some blk
      | _ :: _ =>
        if blk.length + 1 < 255 then
          (cobsDecodeGo f tail).map (fun t => blk ++ 0 :: t)
        else
          (cobsDecodeGo f tail).map (fun t => blk ++ t) := by
  have h0 : ¬(blk.length + 1 = 0) := by omega
  have h1 : ¬((blk ++ tail).length < blk.length + 1 - 1) := by
    simp only [List.length_append]; omega
  have htake : (blk ++ tail).take (blk.length + 1 - 1) = blk := by
    simp [Nat.add_sub_cancel]
  have hdrop : (blk ++ tail).drop (blk.length + 1 - 1) = tail := by
    simp [Nat.add_sub_cancel]
  have h2 : blk.any (fun b => b == 0) = false := by
    simp only [List.any_eq_false]
    intro x hx
    simpa using hz x hx
  simp only [cobsDecodeGo, if_neg h0, if_neg h1, htake, hdrop, h2,
    Bool.false_eq_true, if_false]

theorem cobsDecodeGo_cobsGo (xs : List Nat) :
    ∀ (blk : List Nat) (fuel : Nat), (∀ b ∈ blk, b ≠ 0) → blk.length ≤ 253 →
      xs.length + 1 ≤ fuel → cobsDecodeGo fuel (cobsGo blk xs) = some (blk ++ xs) := by
  induction xs with
  | nil =>
    intro blk fuel hz hlen hfuel
    obtain ⟨f, rfl⟩ : ∃ f, fuel = f + 1 := ⟨fuel - 1, by omega⟩
    have h := cobsDecodeGo_group f blk [] hz (by omega)
    simp only [List.append_nil] at h
    simp only [cobsGo, h, List.append_nil]
  | cons b rest ih =>
    intro blk fuel hz hlen hfuel
    obtain ⟨f, rfl⟩ : ∃ f, fuel = f + 1 := ⟨fuel - 1, by omega⟩
    have hf : rest.length + 1 ≤ f := by
      simp only [List.length_cons] at hfuel; omega
    obtain ⟨y, ys, hys⟩ := List.exists_cons_of_ne_nil (cobsGo_ne_nil rest [])
    have hrec : cobsDecodeGo f (cobsGo [] rest) = some rest := by
      simpa using ih [] f (by simp) (by simp) hf
    simp only [cobsGo]
    by_cases hb : b = 0
    · rw [if_pos hb]
      have h := cobsDecodeGo_group f blk (cobsGo [] rest) hz (by omega)
      rw [h, hys]
      have hrec2 : cobsDecodeGo f (y :: ys) = some rest := by rw [← hys]; exact hrec
      have hlt : blk.length + 1 < 255 := by omega
      simp [hlt, hrec2, hb]
    · by_cases hl : blk.length = 253
      · rw [if_neg hb, if_pos hl]
        have hz2 : ∀ x ∈ blk ++ [b], x ≠ 0 := by
          intro x hx
          rcases List.mem_append.mp hx with hx | hx
          · exact hz x hx
          · rwa [List.mem_singleton.mp hx]
        have h := cobsDecodeGo_group f (blk ++ [b]) (cobsGo [] rest) hz2
          (by simp only [List.length_append, List.length_cons, List.length_nil]; omega)
        have h255 : (blk ++ [b]).length + 1 = 255 := by
          simp only [List.length_append, List.length_cons, List.length_nil]; omega
        rw [← h255, h, hys]
        have hrec2 : cobsDecodeGo f (y :: ys) = some rest := by rw [← hys]; exact hrec
        have hnlt : ¬((blk ++ [b]).length + 1 < 255) := by omega
        simp [hnlt, hrec2]
        omega
      · rw [if_neg hb, if_neg hl]
        have hz2 : ∀ x ∈ blk ++ [b], x ≠ 0 := by
          intro x hx
          rcases List.mem_append.mp hx with hx | hx
          · exact hz x hx
          · rwa [List.mem_singleton.mp hx]
        have hrec2 := ih (blk ++ [b]) (f + 1) hz2
          (by simp only [List.length_append, List.length_cons, List.length_nil]; omega)
          (by simp only [List.length_cons] at hfuel ⊢; omega)
        rw [hrec2]
        simp

theorem cobs_roundtrip (xs : List Nat) : cobsDecode (cobsEncode xs) = some xs := by
  have hlen := cobsGo_length_ge xs []
  simp only [List.length_nil, Nat.zero_add] at hlen
  simpa [cobsDecode, cobsEncode] using
    cobsDecodeGo_cobsGo xs [] (cobsGo [] xs).length (by simp) (by simp) hlen

theorem crc16Shift_lt (c : Nat) : crc16Shift c < 65536 := by
  unfold crc16Shift
  split <;> exact Nat.mod_lt _ (by omega)

theorem crc16Byte_lt (c b : Nat) : crc16Byte c b < 65536 := by
  show (List.range 8).foldl (fun acc _ => crc16Shift acc) _ < 65536
  rw [show (8 : Nat) = 7 + 1 from rfl, List.range_succ, List.foldl_append]
  simp only [List.foldl_cons, List.foldl_nil]
  exact crc16Shift_lt _

theorem foldl_crc16Byte_lt (p : List Nat) : ∀ i, i < 65536 → p.foldl crc16Byte i < 65536 := by
  induction p with
  | nil => intro i hi; simpa using hi
  | cons b rest ih =>
    intro i hi
    simpa using ih (crc16Byte i b) (crc16Byte_lt i b)

theorem crc16_lt (p : List Nat) : crc16 p < 65536 :=
  foldl_crc16Byte_lt p 0xFFFF (by omega)

/-- Claim C1 (code_bug evaluation).  The claim says every request the DFU
engine issues is serialized as the 14-byte packet
`header | u16 block_size | u16 timeout | u8 command | u32 offset |
u32 length` (little-endian).  The code's `LplStream::send_request`
instead drops all of those arguments and serializes
`AplMessage { packet_type, block_number: 0, data: [] }` — 3 bytes.  At
the `quit_bootloader` call (WriteRequest, command 5) the transmitted
APL payload is `[2, 0, 0]`, not 14 bytes and with no command byte,
while the never-called `AplStream::create_request` with the same
arguments does produce exactly the claimed 14-byte layout. -/
theorem send_request_drops_request_fields :
    send_request_payload .WriteRequest 0 0 CMD_BOOTLOADER_QUIT 0 0 = [2, 0, 0] ∧
    (send_request_payload .WriteRequest 0 0 CMD_BOOTLOADER_QUIT 0 0).length = 3 ∧
    create_request .WriteRequest 0 0 CMD_BOOTLOADER_QUIT 0 0 =
      [2, 0, 0, 0, 0, 5, 0, 0, 0, 0, 0, 0, 0, 0] ∧
    (create_request .WriteRequest 0 0 CMD_BOOTLOADER_QUIT 0 0).length = 14 := by
  refine ⟨rfl, rfl, rfl, rfl⟩

/-- Claim C2.  For every payload `p` with `|p| ≤ 1017`, LPL-encoding `p`
(append the little-endian CRC-16/CCITT-FALSE of `p`, COBS-encode) and
LPL-decoding the resulting frame body yields exactly `p`, the CRC
verifying. -/
theorem lpl_framing_roundtrip (p : List Nat) (hp : p.length ≤ 1017) :
    lpl_decode_payload (lpl_encode_payload p) = some p := by
  have hc : crc16 p < 65536 := crc16_lt p
  simp only [lpl_encode_payload, lpl_decode_payload, cobs_roundtrip]
  have hlen : (p ++ le16 (crc16 p)).length = p.length + 2 := by simp [le16]
  rw [if_neg (by omega)]
  have hsub : (p ++ le16 (crc16 p)).length - 2 = p.length := by omega
  rw [hsub]
  have htake : (p ++ le16 (crc16 p)).take p.length = p := List.take_left p _
  have hdrop : (p ++ le16 (crc16 p)).drop p.length = le16 (crc16 p) := List.drop_left p _
  rw [htake, hdrop]
  have hfrom : fromLe16 ((le16 (crc16 p)).getD 0 0) ((le16 (crc16 p)).getD 1 0)
      = crc16 p := by
    simp only [le16, List.getD_cons_zero, List.getD_cons_succ, fromLe16]
    omega
  rw [hfrom, if_pos rfl]

/-- Witness for claim C2: the spec's framing scenario payload `[0x01, 0x02]`
round-trips. -/
theorem lpl_framing_roundtrip_witness :
    ([0x01, 0x02] : List Nat).length ≤ 1017 ∧
    lpl_decode_payload (lpl_encode_payload [0x01, 0x02]) = some [0x01, 0x02] :=
  ⟨by decide, lpl_framing_roundtrip [0x01, 0x02] (by decide)⟩

/-- Claim C3.  Processing an incoming Data or Ack packet whose block
number equals the expected counter advances the counter by exactly +1
(as a 16-bit value) and resets the retry counter; a Data packet
additionally emits an Ack carrying the same block number.  A mismatched
block number makes processing return an error. -/
theorem data_ack_block_counter (s : AplStream) (msg : AplMessage)
    (htype : msg.packet_type = .Data ∨ msg.packet_type = .Ack) :
    (msg.block_number = s.block_number →
      (process_message s msg).1.block_number = (s.block_number + 1) % 65536 ∧
      (s.block_number + 1 < 65536 →
        (process_message s msg).1.block_number = s.block_number + 1) ∧
      (process_message s msg).1.retries = 0 ∧
      (process_message s msg).2.2 = .ok () ∧
      (msg.packet_type = .Data →
        (process_message s msg).2.1 = some ⟨.Ack, msg.block_number, []⟩)) ∧
    (msg.block_number ≠ s.block_number →
      ∃ e, (process_message s msg).2.2 = .error e) := by
  constructor
  · intro heq
    rcases htype with h | h <;>
      simp [process_message, h, handle_data, handle_ack, heq, Nat.mod_eq_of_lt]
  · intro hne
    rcases htype with h | h <;>
      simp [process_message, h, handle_data, handle_ack, hne]

/-- Witness for claim C3: a fresh session processing `Data` block 0 advances
to block 1 and acks block 0. -/
theorem data_ack_block_counter_witness :
    (process_message AplStream.new ⟨.Data, 0, []⟩).1.block_number = 1 ∧
    (process_message AplStream.new ⟨.Data, 0, []⟩).1.retries = 0 ∧
    (process_message AplStream.new ⟨.Data, 0, []⟩).2.1 = some ⟨.Ack, 0, []⟩ := by
  have h := (data_ack_block_counter AplStream.new ⟨.Data, 0, []⟩ (Or.inl rfl)).1 rfl
  exact ⟨by rw [h.1]; decide, h.2.2.1, h.2.2.2.2 rfl⟩

/-- Claim C10.  When a Data or Ack packet is rejected for a block-number
mismatch, the session state is unchanged: both the block counter and
the retry counter keep their prior values. -/
theorem mismatch_leaves_state_unchanged (s : AplStream) (msg : AplMessage)
    (htype : msg.packet_type = .Data ∨ msg.packet_type = .Ack)
    (hne : msg.block_number ≠ s.block_number) :
    (process_message s msg).1 = s ∧
    (process_message s msg).2.1 = none ∧
    ∃ e, (process_message s msg).2.2 = .error e := by
  rcases htype with h | h <;>
    simp [process_message, h, handle_data, handle_ack, hne]

/-- Witness for claim C10: an Ack for block 3 against an expected counter of
5 leaves the state `{5, 0, 3}` untouched. -/
theorem mismatch_leaves_state_unchanged_witness :
    (process_message ⟨5, 0, 3⟩ ⟨.Ack, 3, []⟩).1 = (⟨5, 0, 3⟩ : AplStream) ∧
    (process_message ⟨5, 0, 3⟩ ⟨.Ack, 3, []⟩).2.1 = none ∧
    ∃ e, (process_message ⟨5, 0, 3⟩ ⟨.Ack, 3, []⟩).2.2 = .error e :=
  mismatch_leaves_state_unchanged ⟨5, 0, 3⟩ ⟨.Ack, 3, []⟩ (Or.inr rfl) (by decide)

/-- Claim C6.  An incoming Error packet, while the retry budget (3) is
not exhausted, increments the retry counter and surfaces a retryable
error carrying the packet's data (the server-supplied code and message
bytes); once the retry counter has reached `max_retries`, processing
instead fails the session with the max-retries error.  (`handle_error`
checks `retries >= max_retries` before incrementing, which is the same
observable policy as the spec's increment-then-`retries > 3`: the
fourth consecutive Error fails the session.) -/
theorem error_packet_retry_policy (s : AplStream) (msg : AplMessage)
    (htype : msg.packet_type = .Error) :
    AplStream.new.max_retries = 3 ∧
    (s.retries < s.max_retries →
      (process_message s msg).1.retries = s.retries + 1 ∧
      (process_message s msg).1.block_number = s.block_number ∧
      (process_message s msg).2.2 = .error (.protocolFailure msg.data)) ∧
    (s.max_retries ≤ s.retries →
      (process_message s msg).1 = s ∧
      (process_message s msg).2.2 = .error .maxRetriesExceeded) := by
  refine ⟨rfl, ?_, ?_⟩
  · intro hlt
    simp [process_message, htype, handle_error, Nat.not_le.mpr hlt]
  · intro hge
    simp [process_message, htype, handle_error, hge]

/-- Witness for claim C6: a fresh session (0 retries of 3) surfaces the
retryable error with the packet data and counts the retry; a session
with 3 retries fails with max-retries. -/
theorem error_packet_retry_policy_witness :
    (process_message AplStream.new ⟨.Error, 0, [7, 65]⟩).1.retries = 1 ∧
    (process_message AplStream.new ⟨.Error, 0, [7, 65]⟩).2.2 =
      .error (.protocolFailure [7, 65]) ∧
    (process_message ⟨0, 3, 3⟩ ⟨.Error, 0, []⟩).2.2 = .error .maxRetriesExceeded := by
  have h1 := (error_packet_retry_policy AplStream.new ⟨.Error, 0, [7, 65]⟩ rfl).2.1
    (by decide)
  have h2 := (error_packet_retry_policy ⟨0, 3, 3⟩ ⟨.Error, 0, []⟩ rfl).2.2 (by decide)
  exact ⟨h1.1, h1.2.2, h2.2⟩

/-- Claim C5.  `AplRequestPacket::from_bytes` accepts any input of length
≥ 12 but reads `length` from indices 10..13: on the accepted all-zero
inputs of length 12 and 13 the parse runs past the end of the buffer
(the out-of-bounds branch of the total embedding), while a 14-byte
input parses fully. -/
theorem request_packet_parse_overruns :
    ¬((List.replicate 12 (0 : Nat)).length < 12) ∧
    AplRequestPacket.from_bytes (List.replicate 12 0) = .error .outOfBounds ∧
    AplRequestPacket.from_bytes (List.replicate 13 0) = .error .outOfBounds ∧
    AplRequestPacket.from_bytes (List.replicate 14 0) = .ok ⟨0, 0, 0, 0, 0, 0⟩ := by
  refine ⟨by decide, rfl, rfl, rfl⟩

/-- Claim C4.  With `overwrite` off and the device-reported CRC equal to
the image's CRC-32/ISO-HDLC, `write_firmware` issues no
`WriteProgramMemory` request (only the one `ReadProgramCrc` query) and
returns success. -/
theorem idempotent_skip (cfg : DfuConfig) (info : InfoBlockV2) (fw : List Nat)
    (device_crc : Nat) (write_fail_at : Option Nat)
    (hov : cfg.overwrite = false) (hcrc : device_crc = calculate_crc32 fw) :
    (write_firmware cfg info fw device_crc write_fail_at).1.countP
      (fun r => r.command == CMD_WRITE_PROGRAM_MEMORY) = 0 ∧
    (write_firmware cfg info fw device_crc write_fail_at).2 = .ok () := by
  unfold write_firmware
  rw [if_pos ⟨hcrc, hov⟩]
  refine ⟨?_, rfl⟩
  simp [read_crc_request, CMD_READ_PROGRAM_CRC, CMD_WRITE_PROGRAM_MEMORY,
    List.countP_cons, List.countP_nil]

/-- Witness for claim C4: the default configuration (overwrite off) with the
S2 info block, image `[1]` and a matching device CRC issues zero
writes. -/
theorem idempotent_skip_witness :
    DfuConfig.default.overwrite = false ∧
    (write_firmware DfuConfig.default info_fixture [1]
        (calculate_crc32 [1]) none).1.countP
      (fun r => r.command == CMD_WRITE_PROGRAM_MEMORY) = 0 ∧
    (write_firmware DfuConfig.default info_fixture [1]
        (calculate_crc32 [1]) none).2 = .ok () :=
  ⟨rfl, idempotent_skip DfuConfig.default info_fixture [1]
    (calculate_crc32 [1]) none rfl rfl⟩

/-- Claim C7 (code_bug evaluation).  The claim says uncovered firmware
buffer bytes equal the configured `gap_filling` byte for every value of
that option.  `load_firmware` ignores `config.gap_filling` and
pre-fills with the constant `0xFF`: with `gap_filling = 0` and no data
records the whole buffer is still `0xFF`. -/
theorem gap_filling_ignored :
    cfg_gap_zero.gap_filling = 0 ∧
    load_firmware cfg_gap_zero [] = .ok (List.replicate MAX_FIRMWARE_SIZE 0xFF) ∧
    (0xFF : Nat) ≠ cfg_gap_zero.gap_filling := by
  refine ⟨rfl, rfl, by decide⟩

/-- Claim C8 (code_bug evaluation).  The claim says an image longer than
`info.memmap.firmware_size` makes the writing stage fail with
`FirmwareTooLarge` before any `WriteProgramMemory`.  The size check
lives in `validate_firmware`, which `write_firmware` never calls: with
a 1-byte image against a 0-byte firmware region (and `overwrite` so
the skip branch is off), `validate_firmware` would reject it, yet
`write_firmware` issues a `WriteProgramMemory` request and returns
success. -/
theorem oversized_firmware_not_validated :
    info_small.memmap.firmware_size < ([0xAA] : List Nat).length ∧
    validate_firmware cfg_overwrite info_small [0xAA] = .error .firmwareTooLarge ∧
    (write_firmware cfg_overwrite info_small [0xAA] 0 none).2 = .ok () ∧
    (write_firmware cfg_overwrite info_small [0xAA] 0 none).1.countP
      (fun r => r.command == CMD_WRITE_PROGRAM_MEMORY) = 1 := by
  refine ⟨by decide, rfl, rfl, rfl⟩

theorem auto_enter_cmds (env : DfuEnv) :
    ∀ r ∈ (auto_enter env).1, r.command = CMD_READ_BOOTLOADER_INFO := by
  intro r hr
  unfold auto_enter at hr
  split_ifs at hr <;> simp_all [probe_request]

theorem write_requests_cmds (fw : List Nat) (bs addr : Nat) :
    ∀ r ∈ write_requests fw bs addr, r.command = CMD_WRITE_PROGRAM_MEMORY := by
  intro r hr
  unfold write_requests at hr
  simp only [List.mem_map] at hr
  obtain ⟨p, hp, rfl⟩ := hr
  rfl

theorem write_firmware_cmds (cfg : DfuConfig) (info : InfoBlockV2) (fw : List Nat)
    (device_crc : Nat) (write_fail_at : Option Nat) :
    ∀ r ∈ (write_firmware cfg info fw device_crc write_fail_at).1,
      r.command = CMD_READ_PROGRAM_CRC ∨ r.command = CMD_WRITE_PROGRAM_MEMORY := by
  intro r hr
  unfold write_firmware at hr
  by_cases hskip : (device_crc = calculate_crc32 fw ∧ cfg.overwrite = false)
  · rw [if_pos hskip] at hr
    simp only [List.mem_singleton] at hr
    subst hr
    left; rfl
  · rw [if_neg hskip] at hr
    rcases write_fail_at with _ | k
    · simp only [List.mem_cons] at hr
      rcases hr with rfl | hr
      · left; rfl
      · exact Or.inr (write_requests_cmds fw _ _ r hr)
    · simp only [] at hr
      split_ifs at hr <;> simp only [List.mem_cons] at hr <;>
        rcases hr with rfl | hr
      · left; rfl
      · exact Or.inr (write_requests_cmds fw _ _ r (List.take_subset _ _ hr))
      · left; rfl
      · exact Or.inr (write_requests_cmds fw _ _ r hr)

theorem verify_firmware_cmds (info : InfoBlockV2) (fw : List Nat) (device_crc : Nat) :
    ∀ r ∈ (verify_firmware info fw device_crc).1, r.command = CMD_READ_PROGRAM_CRC := by
  intro r hr
  unfold verify_firmware at hr
  split_ifs at hr <;> simp only [List.mem_singleton] at hr <;> subst hr <;> rfl

theorem write_firmware_stage_cmds (cfg : DfuConfig) (info : InfoBlockV2) (env : DfuEnv) :
    ∀ r ∈ (write_firmware_stage cfg info env).1,
      r.command = CMD_READ_PROGRAM_CRC ∨ r.command = CMD_WRITE_PROGRAM_MEMORY := by
  intro r hr
  unfold write_firmware_stage at hr
  rcases hrec : env.hex_records with e | records <;> simp only [hrec] at hr
  · simp at hr
  · rcases hl : load_firmware cfg records with e2 | fw <;> simp only [hl] at hr
    · simp at hr
    · rcases hc : env.device_crc_write with e3 | dcrc <;> simp only [hc] at hr
      · simp only [List.mem_singleton] at hr
        subst hr
        left; rfl
      · exact write_firmware_cmds cfg info fw dcrc env.write_fail_at r hr

theorem verify_firmware_stage_cmds (cfg : DfuConfig) (info : InfoBlockV2) (env : DfuEnv) :
    ∀ r ∈ (verify_firmware_stage cfg info env).1, r.command = CMD_READ_PROGRAM_CRC := by
  intro r hr
  unfold verify_firmware_stage at hr
  rcases hrec : env.hex_records with e | records <;> simp only [hrec] at hr
  · simp at hr
  · rcases hl : load_firmware cfg records with e2 | fw <;> simp only [hl] at hr
    · simp at hr
    · rcases hc : env.device_crc_verify with e3 | dcrc <;> simp only [hc] at hr
      · simp only [List.mem_singleton] at hr
        subst hr
        rfl
      · exact verify_firmware_cmds info fw dcrc r hr

theorem quit_and_exit_spec (cfg : DfuConfig) (env : DfuEnv) (pre : List SentRequest) :
    (quit_and_exit cfg env pre).2 = .ok () ∨
    ∃ e, (quit_and_exit cfg env pre).2 = .error (.quitting, e) := by
  unfold quit_and_exit
  by_cases hq : cfg.quit
  · rw [if_pos hq]
    rcases h : env.quit_ok with e | u <;> simp
  · rw [if_neg hq]
    left; rfl

/-- Claim C9.  If `update()` fails with a fatal error in a stage that
precedes quitting — entering the bootloader, reading the info block,
writing, or verifying (`VerificationFailed` included) — then no
`BootloaderQuit` request (command 5) is sent in that run. -/
theorem no_quit_on_prequit_failure (cfg : DfuConfig) (env : DfuEnv)
    (st : DfuStage) (e : DfuError)
    (hfail : (update cfg env).2 = .error (st, e))
    (hst : st ≠ DfuStage.quitting) :
    ∀ r ∈ (update cfg env).1, r.command ≠ CMD_BOOTLOADER_QUIT := by
  rcases h1 : (if cfg.upd_mode ≠ UpdateMode.None then auto_enter env
    else ([], .ok ())) with ⟨t1, r1⟩
  have ht1 : ∀ x ∈ t1, x.command = CMD_READ_BOOTLOADER_INFO := by
    by_cases hm : cfg.upd_mode ≠ UpdateMode.None
    · rw [if_pos hm] at h1
      intro x hx
      exact auto_enter_cmds env x (by rw [h1]; exact hx)
    · rw [if_neg hm] at h1
      cases h1
      intro x hx
      simp at hx
  unfold update at hfail ⊢
  rw [h1] at hfail ⊢
  rcases r1 with e1 | u1
  · intro r hr
    simp only [] at hr
    have := ht1 r hr
    simp [this, CMD_READ_BOOTLOADER_INFO, CMD_BOOTLOADER_QUIT]
  · cases u1
    simp only [] at hfail ⊢
    by_cases hgi : (cfg.get_info = true ∨ cfg.update = true ∨ cfg.verify = true)
    · rw [if_pos hgi] at hfail ⊢
      simp only [read_bootloader_info] at hfail ⊢
      rcases hinfo : env.info with e2 | info <;> rw [hinfo] at hfail <;>
        simp only [] at hfail ⊢
      · intro r hr
        simp only [List.mem_append, List.mem_singleton] at hr
        rcases hr with hr | rfl
        · have := ht1 r hr
          simp [this, CMD_READ_BOOTLOADER_INFO, CMD_BOOTLOADER_QUIT]
        · simp [read_info_request, CMD_READ_BOOTLOADER_INFO, CMD_BOOTLOADER_QUIT]
      · rcases h3 : (if cfg.update then write_firmware_stage cfg info env
          else ([], .ok ())) with ⟨t3, r3⟩
        have ht3 : ∀ x ∈ t3,
            x.command = CMD_READ_PROGRAM_CRC ∨ x.command = CMD_WRITE_PROGRAM_MEMORY := by
          by_cases hu : cfg.update = true
          · rw [if_pos hu] at h3
            intro x hx
            exact write_firmware_stage_cmds cfg info env x (by rw [h3]; exact hx)
          · rw [if_neg hu] at h3
            cases h3
            intro x hx
            simp at hx
        rcases r3 with e3 | u3 <;> simp only [] at hfail ⊢
        · intro r hr
          simp only [List.mem_append, List.mem_singleton] at hr
          rcases hr with (hr | rfl) | hr
          · have := ht1 r hr
            simp [this, CMD_READ_BOOTLOADER_INFO, CMD_BOOTLOADER_QUIT]
          · simp [read_info_request, CMD_READ_BOOTLOADER_INFO, CMD_BOOTLOADER_QUIT]
          · rcases ht3 r hr with h | h <;>
              simp [h, CMD_READ_PROGRAM_CRC, CMD_WRITE_PROGRAM_MEMORY, CMD_BOOTLOADER_QUIT]
        · rcases h4 : (if cfg.verify then verify_firmware_stage cfg info env
            else ([], .ok ())) with ⟨t4, r4⟩
          have ht4 : ∀ x ∈ t4, x.command = CMD_READ_PROGRAM_CRC := by
            by_cases hv : cfg.verify = true
            · rw [if_pos hv] at h4
              intro x hx
              exact verify_firmware_stage_cmds cfg info env x (by rw [h4]; exact hx)
            · rw [if_neg hv] at h4
              cases h4
              intro x hx
              simp at hx
          rcases r4 with e4 | u4 <;> simp only [] at hfail ⊢
          · intro r hr
            simp only [List.mem_append, List.mem_singleton] at hr
            rcases hr with ((hr | rfl) | hr) | hr
            · have := ht1 r hr
              simp [this, CMD_READ_BOOTLOADER_INFO, CMD_BOOTLOADER_QUIT]
            · simp [read_info_request, CMD_READ_BOOTLOADER_INFO, CMD_BOOTLOADER_QUIT]
            · rcases ht3 r hr with h | h <;>
                simp [h, CMD_READ_PROGRAM_CRC, CMD_WRITE_PROGRAM_MEMORY, CMD_BOOTLOADER_QUIT]
            · have := ht4 r hr
              simp [this, CMD_READ_PROGRAM_CRC, CMD_BOOTLOADER_QUIT]
          · rw [h3] at hfail
            simp only [] at hfail
            rw [h4] at hfail
            simp only [] at hfail
            rcases quit_and_exit_spec cfg env
              (t1 ++ [read_info_request] ++ t3 ++ t4) with hok | ⟨e', he'⟩
            · rw [hok] at hfail
              exact absurd hfail (by simp)
            · rw [he'] at hfail
              have : (DfuStage.quitting, e') = (st, e) := Except.error.inj hfail
              exact absurd (congrArg Prod.fst this).symm hst
    · rw [if_neg hgi] at hfail ⊢
      rcases quit_and_exit_spec cfg env t1 with hok | ⟨e', he'⟩
      · rw [hok] at hfail
        exact absurd hfail (by simp)
      · rw [he'] at hfail
        have : (DfuStage.quitting, e') = (st, e) := Except.error.inj hfail
        exact absurd (congrArg Prod.fst this).symm hst

/-- Witness for claim C9: a run configured to read info and quit, whose info
read fails with a connection error, fails in the readingInfo stage and
its request trace contains no BootloaderQuit command. -/
theorem no_quit_on_prequit_failure_witness :
    (update cfg_info_quit env_info_fails).2 =
      .error (DfuStage.readingInfo, DfuError.connection) ∧
    ∀ r ∈ (update cfg_info_quit env_info_fails).1,
      r.command ≠ CMD_BOOTLOADER_QUIT :=
  ⟨rfl, no_quit_on_prequit_failure cfg_info_quit env_info_fails
    .readingInfo .connection rfl (by decide)⟩

end Fwupd
